import Mathlib

/-!
Shallow embedding of `src/gcode_writer/SnapmakerGCodeWriter.py`
(SnapmakerJ1CuraPlugin): the G-code header rewriter that parses metadata
out of sliced G-code text, selects a header schema version from a static
device table, and writes a synthesized header followed by the original
body chunks.

Python strings are modelled as Lean `String`s, with the string operations
the source uses (`split`, `strip`, `startswith`, `in`, `rstrip`, `format`)
re-implemented structurally over `String.data` so that every definition
evaluates by kernel reduction.  Python floats are modelled as exact
decimal values (an integer numerator over a power-of-ten denominator);
every float the claims touch is exactly representable.  Fallible Python
code (KeyError / ValueError / NameError) is modelled with `Except`.
-/

deriving instance DecidableEq for Except

namespace Snapmaker

/-- Python `str.split(sep)` for a one-character separator, on char lists:
splits at every occurrence, keeping empty pieces (so `"a\nb\n"` yields
`["a", "b", ""]`, and the empty string yields `[""]`). -/
def chSplit (sep : Char) : List Char → List (List Char)
  | [] => [[]]
  | c :: rest =>
    let r := chSplit sep rest
    if c == sep then [] :: r
    else
      match r with
      | [] => [[c]]
      | h :: t => (c :: h) :: t

/-- Python `s.split('\n')`, as used on each G-code chunk. -/
def pyLines (s : String) : List String := (chSplit '\n' s.data).map String.mk

/-- List-level prefix test (Python `str.startswith`). -/
def startsWithL : List Char → List Char → Bool
  | _, [] => true
  | [], _ :: _ => false
  | c :: cs, p :: ps => c == p && startsWithL cs ps

/-- Python `s.startswith(p)`. -/
def pyStarts (s p : String) : Bool := startsWithL s.data p.data

/-- Python `c in s` for a one-character needle. -/
def containsC (c : Char) (s : String) : Bool := s.data.any (· == c)

/-- Python `str.strip()` with no argument: drop leading and trailing
whitespace. -/
def trimL (l : List Char) : List Char :=
  ((l.dropWhile Char.isWhitespace).reverse.dropWhile Char.isWhitespace).reverse

/-- Python `s.strip()`. -/
def pyStrip (s : String) : String := String.mk (trimL s.data)

/-- Python `s.split(c, 1)` under the guarantee that `c` occurs in `s`:
the piece before the first occurrence and everything after it.  (When `c`
does not occur the source never reaches this split.) -/
def splitAtFirst (c : Char) : List Char → List Char × List Char
  | [] => ([], [])
  | x :: rest =>
    if x == c then ([], rest)
    else
      let p := splitAtFirst c rest
      (x :: p.1, p.2)

/-- Python `s.rstrip(c)` for a one-character strip set: remove every
trailing occurrence of `c`. -/
def rstrip (c : Char) (s : String) : String :=
  String.mk ((s.data.reverse.dropWhile (· == c)).reverse)

/-- Python `sep.join(lines)` / `"\n".join(headers)`. -/
def myIntercalate (sep : String) : List String → String
  | [] => ""
  | [s] => s
  | s :: rest => s ++ sep ++ myIntercalate sep rest

/-- Decimal digits of a natural number (helper for `natToStr`); the fuel
argument is structural and `fuel = n + 1` always suffices since the
recursion divides by ten. -/
def natToStrAux : Nat → Nat → List Char
  | 0, _ => []
  | fuel + 1, n =>
    if n < 10 then [Char.ofNat (48 + n)]
    else natToStrAux fuel (n / 10) ++ [Char.ofNat (48 + n % 10)]

/-- Python `str(n)` for a non-negative integer. -/
def natToStr (n : Nat) : String := String.mk (natToStrAux (n + 1) n)

/-- Python `str(n)` / `"{}".format(n)` for an integer. -/
def intToStr : Int → String
  | .ofNat n => natToStr n
  | .negSucc n => String.mk ('-' :: (natToStr (n + 1)).data)

/-- Exact-decimal model of a CPython float: the value `num / den`, with
`den` a positive power of ten by construction.  Every float value the
claims exercise is an exact decimal, so no binary-float rounding is
observable in the modelled behaviour. -/
structure PyFloat where
  num : Int
  den : Nat
deriving DecidableEq

/-- Value of a digit string (helper for the float literal parser). -/
def digitsVal (l : List Char) : Nat := l.foldl (fun n c => n * 10 + (c.toNat - 48)) 0

/-- Python `float(s)` on plain decimal literals: optional surrounding
whitespace and sign, then digits with an optional fractional part (at
least one digit overall).  Other Python-accepted forms (exponents,
`inf`/`nan`, underscores) do not occur in the claims; malformed text
yields `none`, modelling `ValueError`. -/
def pyFloat (s : String) : Option PyFloat :=
  let l := trimL s.data
  let sl : Int × List Char :=
    match l with
    | '-' :: rest => (-1, rest)
    | '+' :: rest => (1, rest)
    | _ => (1, l)
  match chSplit '.' sl.2 with
  | [a] =>
    if !a.isEmpty && a.all Char.isDigit then some ⟨sl.1 * digitsVal a, 1⟩ else none
  | [a, b] =>
    if !(a.isEmpty && b.isEmpty) && a.all Char.isDigit && b.all Char.isDigit then
      some ⟨sl.1 * (digitsVal a * 10 ^ b.length + digitsVal b), 10 ^ b.length⟩
    else none
  | _ => none

/-- Nearest integer to `num / den` with ties to even (`den > 0`), the
rounding used by Python `format` for fixed-point rendering. -/
def roundHalfEvenScaled (num : Int) (den : Nat) : Int :=
  let q := num.fdiv den
  let r := num - q * den
  if 2 * r < den then q
  else if (den : Int) < 2 * r then q + 1
  else if q % 2 = 0 then q else q + 1

/-- Python `"{:.<prec>f}".format(v)`: fixed-point rendering with `prec`
digits after the decimal point (no point at all when `prec = 0`). -/
def formatFixed (prec : Nat) (d : PyFloat) : String :=
  let scaled := roundHalfEvenScaled (d.num * 10 ^ prec) d.den
  let n := scaled.natAbs
  let ip := n / 10 ^ prec
  let fp := n % 10 ^ prec
  let fpStr := natToStr fp
  let fpPad := String.mk (List.replicate (prec - fpStr.length) '0') ++ fpStr
  (if scaled < 0 then "-" else "") ++ natToStr ip ++
    (if prec == 0 then "" else "." ++ fpPad)

/-- Modelled rendering of a float by Python `"{}".format` (used only for
the work-range coordinate lines); no theorem relies on its exact digits,
only on the fixed line prefixes it is appended to. -/
def pyFloatRepr (d : PyFloat) : String :=
  let sign := if d.num < 0 then "-" else ""
  let n := d.num.natAbs
  if d.den ≤ 1 then sign ++ natToStr n ++ ".0"
  else
    let k := (natToStr d.den).length - 1
    let fp := natToStr (n % d.den)
    sign ++ natToStr (n / d.den) ++ "." ++
      String.mk (List.replicate (k - fp.length) '0') ++ fp

/-- Python exceptions the source can raise or catch on these paths. -/
inductive PyError
  | keyError
  | valueError
  | nameError
deriving DecidableEq

/-- Modelled from the spec: `UM.Math.Vector`, a 3D point (the component
values here are the parsed decimal coordinates). -/
structure Vector3 where
  x : PyFloat
  y : PyFloat
  z : PyFloat
deriving DecidableEq

/-- Modelled from the spec: `UM.Math.AxisAlignedBox` — the default
(no-argument) construction is the "invalid" sentinel state, and a box
constructed from explicit minimum/maximum points is valid. -/
structure AxisAlignedBox where
  minimum : Vector3
  maximum : Vector3
  valid : Bool
deriving DecidableEq

/-- The `AxisAlignedBox()` default: invalid sentinel. -/
def AxisAlignedBox.invalid : AxisAlignedBox :=
  ⟨⟨⟨0, 1⟩, ⟨0, 1⟩, ⟨0, 1⟩⟩, ⟨⟨0, 1⟩, ⟨0, 1⟩, ⟨0, 1⟩⟩, false⟩

/-- `GCodeInfo` (source lines 23–28).  The declared fields are `bbox`,
`flavor` (defaulted to "Marlin") and `line_count`.  Python objects accept
dynamically added attributes; the parse assigns a misspelt `flavour`
attribute, modelled here as an extra optional slot (absent = attribute
never set). -/
structure GCodeInfo where
  bbox : AxisAlignedBox := AxisAlignedBox.invalid
  flavor : String := "Marlin"
  line_count : Nat := 0
  flavour : Option String := none
deriving DecidableEq

/-- Python dict from header key to trimmed value, in insertion order. -/
abbrev KV := List (String × String)

/-- Python `d[k] = v`: overwrite in place if the key exists, else append. -/
def kvInsert (kv : KV) (k v : String) : KV :=
  if kv.any (fun p => p.1 == k) then
    kv.map (fun p => if p.1 == k then (k, v) else p)
  else kv ++ [(k, v)]

/-- Python `d.get(k)` / `k in d` support. -/
def kvLookup (kv : KV) (k : String) : Option String :=
  match kv with
  | [] => none
  | (k2, v) :: rest => if k2 == k then some v else kvLookup rest k

/-- Python `k in d`. -/
def kvHas (kv : KV) (k : String) : Bool := (kvLookup kv k).isSome

/-- The end-of-header sentinel line prefix (source line 122). -/
def curaSentinel : String := ";Generated with Cura_SteamEngine"

/-- Inner loop of `__parseOriginalGCode` over the lines of one chunk
(source lines 121–131): stop at the sentinel (returning
`check_header_line = false`), otherwise record `;KEY:VALUE` lines into
the key/value dict and keep going.  Returns the resulting flag and dict. -/
def scanChunkLines : List String → KV → Bool × KV
  | [], kv => (true, kv)
  | line :: rest, kv =>
    if pyStarts line curaSentinel then (false, kv)
    else
      let kv :=
        if pyStarts line ";" && containsC ':' line then
          let l2 := pyStrip (String.mk (line.data.drop 1))
          let p := splitAtFirst ':' l2.data
          kvInsert kv (String.mk p.1) (pyStrip (String.mk p.2))
        else kv
      scanChunkLines rest kv

/-- Outer loop of `__parseOriginalGCode` over the chunks (source lines
116–131): accumulate the line count `len(lines) - 1` per chunk, and scan
a chunk's lines for header keys only while `check_header_line` holds. -/
def scanGCode : List String → Nat → Bool → KV → Nat × KV
  | [], lc, _, kv => (lc, kv)
  | g :: rest, lc, chk, kv =>
    let lines := pyLines g
    let lc := lc + (lines.length - 1)
    if chk then
      let r := scanChunkLines lines kv
      scanGCode rest lc r.1 r.2
    else scanGCode rest lc chk kv

/-- Total newline count across all chunks: each chunk contributes its
number of `'\n'`-splits minus one. -/
def totalLineCount : List String → Nat
  | [] => 0
  | g :: rest => ((pyLines g).length - 1) + totalLineCount rest

/-- The key/value map the parse extracts from a G-code list. -/
def scanKV (gcode_list : List String) : KV := (scanGCode gcode_list 0 true []).2

/-- Python `float(kv[k])`: a missing key raises `KeyError`, malformed
numeric text raises `ValueError`. -/
def kvGetFloat (kv : KV) (k : String) : Except PyError PyFloat :=
  match kvLookup kv k with
  | none => .error .keyError
  | some v =>
    match pyFloat v with
    | none => .error .valueError
    | some d => .ok d

/-- The bounding-box construction of `__parseOriginalGCode` (source lines
137–140), evaluated in Python's left-to-right argument order:
`AxisAlignedBox(Vector(float(kv["MINX"]), float(kv["MINY"]),
float(kv["MINZ"])), Vector(float(kv["MAXX"]), float(kv["MAXY"]),
float(kv["MAXZ"])))`. -/
def bboxOf (kv : KV) : Except PyError AxisAlignedBox :=
  match kvGetFloat kv "MINX" with
  | .error e => .error e
  | .ok x =>
    match kvGetFloat kv "MINY" with
    | .error e => .error e
    | .ok y =>
      match kvGetFloat kv "MINZ" with
      | .error e => .error e
      | .ok z =>
        match kvGetFloat kv "MAXX" with
        | .error e => .error e
        | .ok mx =>
          match kvGetFloat kv "MAXY" with
          | .error e => .error e
          | .ok my =>
            match kvGetFloat kv "MAXZ" with
            | .error e => .error e
            | .ok mz => .ok ⟨⟨x, y, z⟩, ⟨mx, my, mz⟩, true⟩

/-- `SnapmakerGCodeWriter.__parseOriginalGCode` (source lines 105–143).
Scans all chunks for the line count and the header key/value pairs, then
builds a `GCodeInfo`: the `FLAVOR` value is written to the misspelt
`flavour` attribute; the bounding box is attempted only when `MINX` is
present, and any missing companion key (`KeyError`) or malformed numeric
text (`ValueError`) aborts the whole call with that exception. -/
def parseOriginalGCode (gcode_list : List String) : Except PyError GCodeInfo :=
  let line_count := (scanGCode gcode_list 0 true []).1
  let kv := scanKV gcode_list
  let flavourOpt := kvLookup kv "FLAVOR"
  if kvHas kv "MINX" then
    match bboxOf kv with
    | .error e => .error e
    | .ok bb =>
      .ok { bbox := bb, flavor := "Marlin", line_count := line_count,
            flavour := flavourOpt }
  else
    .ok { bbox := AxisAlignedBox.invalid, flavor := "Marlin",
          line_count := line_count, flavour := flavourOpt }

/-- One entry of the static `SNAPMAKER_DISCOVER_MACHINES` device table
(imported from `config.py`, which is outside `src/`).  Modelled from the
spec: each profile is a dict carrying at least a `name` key — hence a
non-empty, truthy dict — and optionally a `header_version`. -/
structure Machine where
  name : String
  header_version : Option Int
deriving DecidableEq

/-- Value of the Python loop variable `machine` after the `for` loop of
`__detectHeaderVersion` (source lines 50–52): the first entry whose name
matches (the loop breaks there), otherwise the last entry examined; when
the table is empty the variable was never bound (Python `NameError`,
modelled as `none`). -/
def loopMachine : List Machine → String → Option Machine
  | [], _ => none
  | [m], _ => some m
  | m :: m2 :: rest, name =>
    if m.name == name then some m else loopMachine (m2 :: rest) name

/-- `SnapmakerGCodeWriter.__detectHeaderVersion` (source lines 46–54):
`self._header_version = machine.get('header_version', 1) if machine
else -1`.  Since every table entry is a dict with at least a `name` key,
`machine` is truthy whenever the loop ran, so the `-1` branch is
unreachable for a non-empty table. -/
def detectHeaderVersion (machines : List Machine) (machine_name : String) :
    Except PyError Int :=
  match loopMachine machines machine_name with
  | none => .error .nameError
  | some m => .ok (m.header_version.getD 1)

/-- One configured extruder as read from the global container stack
(position and the five per-extruder values, each already rendered by
Python `"{}".format` to the text that lands in the header). -/
structure Extruder where
  position : String
  nozzle_size : String
  material_name : String
  print_temperature : String
  retraction_amount : String
  switch_retraction_amount : String
deriving DecidableEq

/-- The five per-extruder header lines (source lines 190–194 and
296–300; the loop body is identical on both paths). -/
def extruderLines (e : Extruder) : List String :=
  [";Extruder " ++ e.position ++ " Nozzle Size:" ++ e.nozzle_size,
   ";Extruder " ++ e.position ++ " Material:" ++ e.material_name,
   ";Extruder " ++ e.position ++ " Print Temperature:" ++ e.print_temperature,
   ";Extruder " ++ e.position ++ " Retraction Distance:" ++ e.retraction_amount,
   ";Extruder " ++ e.position ++ " Switch Retraction Distance:" ++
     e.switch_retraction_amount]

/-- A scene node as the V1 formatter sees it (source lines 200–206):
`none` models a node whose `getStack` decoration is absent (skipped),
`some n` a node whose stack yields extruder index `n` via `int(...)`. -/
structure SceneNode where
  extruder_nr : Option Int
deriving DecidableEq

/-- The `extruders_used` set size (source lines 199–208): the number of
distinct extruder indices over the nodes that carry a stack, in
depth-first scene order. -/
def extrudersUsed (nodes : List SceneNode) : Nat :=
  ((nodes.filterMap SceneNode.extruder_nr).dedup).length

/-- A raw property value as returned by the host settings stack. -/
inductive PropValue
  | pfloat (d : PyFloat)
  | pstr (s : String)
deriving DecidableEq

/-- Python `str(value_)` on a raw property value. -/
def pyStrOfValue : PropValue → String
  | .pfloat d => pyFloatRepr d
  | .pstr s => s

/-- One resolved setting of the active extruder stack: its declared type
string, raw value, and (for enum settings) the options dict. -/
structure ExtruderSetting where
  type : String
  value : PropValue
  options : KV
deriving DecidableEq

/-- `SnapmakerGCodeWriter.__getExtruderValue` (source lines 232–247):
float-typed values are rendered with `"{:.4f}"` then `rstrip("0")` then
`rstrip(".")`; enum values go through the options dict keyed by
`str(value_)` (a missing option raises `KeyError`); everything else is
`str(value_)`.  Applying the `"{:.4f}"` format to a non-numeric value is
Python `ValueError`. -/
def getExtruderValue (st : ExtruderSetting) : Except PyError String :=
  if st.type == "float" then
    match st.value with
    | .pfloat d => .ok (rstrip '.' (rstrip '0' (formatFixed 4 d)))
    | .pstr _ => .error .valueError
  else if st.type == "enum" then
    match kvLookup st.options (pyStrOfValue st.value) with
    | some v => .ok v
    | none => .error .keyError
  else .ok (pyStrOfValue st.value)

/-- Everything the writer reads from the host application, bundled:
the static device table and active machine name, print information,
global-stack and per-extruder settings, the scene, the thumbnail result,
and the scene's cached `gcode_dict` (absent when the scene object lacks
the attribute) keyed by build plate. -/
structure Host where
  machines : List Machine
  machine_name : String
  estimated_time : Int
  extruder_mode : String
  extruders : List Extruder
  bed_temperature_layer0 : String
  scene_nodes : List SceneNode
  thumbnail : String
  material_print_temperature : ExtruderSetting
  material_bed_temperature : ExtruderSetting
  speed_infill : ExtruderSetting
  gcode_dict : Option (List (Nat × List String))
  active_build_plate : Nat
deriving DecidableEq

/-- The six V1 work-range lines (source lines 212–219). -/
def workRangeLinesV1 (bb : AxisAlignedBox) : List String :=
  [";Work Range - Min X:" ++ pyFloatRepr bb.minimum.x,
   ";Work Range - Min Y:" ++ pyFloatRepr bb.minimum.y,
   ";Work Range - Min Z:" ++ pyFloatRepr bb.minimum.z,
   ";Work Range - Max X:" ++ pyFloatRepr bb.maximum.x,
   ";Work Range - Max Y:" ++ pyFloatRepr bb.maximum.y,
   ";Work Range - Max Z:" ++ pyFloatRepr bb.maximum.z]

/-- The V1 header list (source lines 171–225): fixed preamble, the
per-extruder blocks, bed temperature, distinct-extruder count, the
work-range block only when `gcode_info` exists and its box is valid,
thumbnail, and the end sentinel followed by a blank line. -/
def mkHeadersV1 (h : Host) (gi : Option GCodeInfo) : List String :=
  (([";Header Start",
     ";Version:1",
     ";Slicer:CuraEngine",
     ";Printer:" ++ h.machine_name,
     ";Estimated Print Time:" ++ intToStr h.estimated_time,
     ";Lines:" ++ natToStr (match gi with | some i => i.line_count | none => 0),
     ";Extruder Mode:" ++ h.extruder_mode]
    ++ (h.extruders.map extruderLines).flatten
    ++ [";Bed Temperature:" ++ h.bed_temperature_layer0]
    ++ [";Extruder(s) Used:" ++ natToStr (extrudersUsed h.scene_nodes)]
    ++ (match gi with
        | some i => if i.bbox.valid then workRangeLinesV1 i.bbox else []
        | none => [])
    ++ [";Thumbnail:" ++ h.thumbnail])
   ++ [";Header End"])
  ++ [""]

/-- The formatter-boundary `try/except KeyError` around the parse
(source lines 157–160 and 250–253): `KeyError` degrades to
`gcode_info = None`; any other exception propagates. -/
def runParse (gcode_list : List String) : Except PyError (Option GCodeInfo) :=
  match parseOriginalGCode gcode_list with
  | .ok i => .ok (some i)
  | .error .keyError => .ok none
  | .error e => .error e

/-- `SnapmakerGCodeWriter._processGCodeListV1` (source lines 156–230).
The result is the ordered list of strings written to the stream: the
newline-joined header block, then every original chunk verbatim. -/
def processGCodeListV1 (h : Host) (gcode_list : List String) :
    Except PyError (List String) :=
  match runParse gcode_list with
  | .error e => .error e
  | .ok gi => .ok (myIntercalate "\n" (mkHeadersV1 h gi) :: gcode_list)

/-- The six legacy bounding-box lines (source lines 305–310). -/
def workRangeLinesLegacy (bb : AxisAlignedBox) : List String :=
  [";min_x(mm): " ++ pyFloatRepr bb.minimum.x,
   ";min_y(mm): " ++ pyFloatRepr bb.minimum.y,
   ";min_z(mm): " ++ pyFloatRepr bb.minimum.z,
   ";max_x(mm): " ++ pyFloatRepr bb.maximum.x,
   ";max_y(mm): " ++ pyFloatRepr bb.maximum.y,
   ";max_z(mm): " ++ pyFloatRepr bb.maximum.z]

/-- The legacy header list (source lines 267–317). -/
def mkHeadersLegacy (h : Host) (gi : Option GCodeInfo)
    (print_temp bed_temp print_speed : PyFloat) : List String :=
  (([";Header Start",
     ";header_type: 3dp",
     ";file_total_lines: " ++
       natToStr (match gi with | some i => i.line_count | none => 0),
     ";estimated_time(s): " ++ formatFixed 2 ⟨h.estimated_time, 1⟩,
     ";nozzle_temperature(°C): " ++ formatFixed 0 print_temp,
     ";build_plate_temperature(°C): " ++ formatFixed 0 bed_temp,
     ";work_speed(mm/minute): " ++ formatFixed 0 print_speed,
     ";Printer:" ++ h.machine_name]
    ++ (h.extruders.map extruderLines).flatten
    ++ (match gi with
        | some i => if i.bbox.valid then workRangeLinesLegacy i.bbox else []
        | none => [])
    ++ [";thumbnail: " ++ h.thumbnail])
   ++ [";Header End"])
  ++ [""]

/-- `SnapmakerGCodeWriter._processGCodeListLegacy` (source lines
249–322): parse (KeyError caught), then `float(__getExtruderValue(...))`
for print temperature, bed temperature (`or 0.` — a no-op on the exact
value since a falsy float is already zero) and infill speed, any of which
can raise uncaught, then the header block and the verbatim chunks. -/
def processGCodeListLegacy (h : Host) (gcode_list : List String) :
    Except PyError (List String) :=
  match runParse gcode_list with
  | .error e => .error e
  | .ok gi =>
    match getExtruderValue h.material_print_temperature with
    | .error e => .error e
    | .ok pts =>
      match pyFloat pts with
      | none => .error .valueError
      | some print_temp =>
        match getExtruderValue h.material_bed_temperature with
        | .error e => .error e
        | .ok bts =>
          match pyFloat bts with
          | none => .error .valueError
          | some bt =>
            let bed_temp := if bt.num == 0 then (⟨0, 1⟩ : PyFloat) else bt
            match getExtruderValue h.speed_infill with
            | .error e => .error e
            | .ok sps =>
              match pyFloat sps with
              | none => .error .valueError
              | some print_speed =>
                .ok (myIntercalate "\n"
                      (mkHeadersLegacy h gi print_temp bed_temp print_speed)
                     :: gcode_list)

/-- `SnapmakerGCodeWriter._processGCodeListTransparent` (source lines
324–326): write only the original chunks, unchanged. -/
def processGCodeListTransparent (gcode_list : List String) : List String :=
  gcode_list

/-- `SnapmakerGCodeWriter.processGCodeList` (source lines 145–154):
detect the header version, then dispatch to exactly one formatter. -/
def processGCodeList (h : Host) (gcode_list : List String) :
    Except PyError (List String) :=
  match detectHeaderVersion h.machines h.machine_name with
  | .error e => .error e
  | .ok v =>
    if v == 1 then processGCodeListV1 h gcode_list
    else if v == 0 then processGCodeListLegacy h gcode_list
    else .ok (processGCodeListTransparent gcode_list)

/-- `FileWriter.OutputMode`. -/
inductive OutputMode
  | TextMode
  | BinaryMode
deriving DecidableEq

/-- Observable outcome of a `write` call: the returned boolean, the
status message passed to `setInformation` (if any), and the ordered list
of strings written to the stream. -/
structure WriteOutcome where
  success : Bool
  message : Option String
  written : List String
deriving DecidableEq

/-- The not-supported status message (source line 64). -/
def msgNotSupported : String := "GCodeWriter does not support non-text mode."

/-- The please-prepare status message (source lines 70 and 79). -/
def msgPrepare : String := "Please prepare G-code before exporting."

/-- Python `gcode_dict.get(active_build_plate, None)`. -/
def dictGet (d : List (Nat × List String)) (k : Nat) : Option (List String) :=
  match d with
  | [] => none
  | (k2, v) :: rest => if k2 == k then some v else dictGet rest k

/-- Whether G-code has been prepared for the active build plate: the
scene has a `gcode_dict` attribute and it maps the active plate. -/
def preparedB (h : Host) : Bool :=
  match h.gcode_dict with
  | none => false
  | some d => (dictGet d h.active_build_plate).isSome

/-- `SnapmakerGCodeWriter.write` (source lines 56–80), with the mode
parameter defaulting to `FileWriter.OutputMode.BinaryMode` exactly as in
the source signature.  Non-text mode and missing prepared G-code return
`False` with a status message and write nothing; otherwise the chunk
list is processed (whose own uncaught exceptions propagate). -/
def write (h : Host) (mode : OutputMode := OutputMode.BinaryMode) :
    Except PyError WriteOutcome :=
  if mode != OutputMode.TextMode then .ok ⟨false, some msgNotSupported, []⟩
  else
    match h.gcode_dict with
    | none => .ok ⟨false, some msgPrepare, []⟩
    | some d =>
      match dictGet d h.active_build_plate with
      | some gl =>
        match processGCodeList h gl with
        | .error e => .error e
        | .ok ws => .ok ⟨true, none, ws⟩
      | none => .ok ⟨false, some msgPrepare, []⟩

/-! ### Derived predicates and helper lemmas -/

/-- All six bounding-box keys are present in a key/value map with
well-formed numeric values. -/
def sixKeysWellFormed (kv : KV) : Bool :=
  ["MINX", "MINY", "MINZ", "MAXX", "MAXY", "MAXZ"].all
    fun k => ((kvLookup kv k).bind pyFloat).isSome

/-- Some line of the list is a work-range header line. -/
def hasWorkRange (hs : List String) : Bool :=
  hs.any fun s => pyStarts s ";Work Range"

/-- Whether a (possibly absent) `GCodeInfo` carries a valid bounding box
(the condition `gcode_info and gcode_info.bbox.isValid()` of source lines
210 and 302). -/
def giValid : Option GCodeInfo → Bool
  | some i => i.bbox.valid
  | none => false

/-- A concrete host configuration used to evaluate the embedding: one
known device profile, one extruder, prepared G-code on plate 0. -/
def host1 : Host :=
  { machines := [⟨"Snapmaker J1", some 1⟩]
    machine_name := "Snapmaker J1"
    estimated_time := 6183
    extruder_mode := "Normal"
    extruders := [⟨"0", "0.4", "PLA", "210", "1", "2"⟩]
    bed_temperature_layer0 := "60"
    scene_nodes := [⟨some 0⟩]
    thumbnail := ""
    material_print_temperature := ⟨"float", .pfloat ⟨210, 1⟩, []⟩
    material_bed_temperature := ⟨"float", .pfloat ⟨60, 1⟩, []⟩
    speed_infill := ⟨"float", .pfloat ⟨3600, 1⟩, []⟩
    gcode_dict := some [(0, ["G90\n"])]
    active_build_plate := 0 }

/-- `host1` with an active machine name matching no table entry. -/
def hostUnmatched : Host := { host1 with machine_name := "Unknown Device" }

/-- `host1` with no cached G-code (`scene` lacks `gcode_dict`). -/
def hostNoPrep : Host := { host1 with gcode_dict := none }

/-- A G-code chunk whose header has a malformed `MINX` value. -/
def chunkMalformed : String :=
  ";MINX:abc\n;MINY:1\n;MINZ:1\n;MAXX:2\n;MAXY:2\n;MAXZ:2\n"

/-- `host1` with the malformed chunk prepared on the active plate. -/
def hostMal : Host := { host1 with gcode_dict := some [(0, [chunkMalformed])] }

/-- The `GCodeInfo` produced by parsing `["G90\nG1\n"]`. -/
def giPlain : GCodeInfo := { line_count := 2 }

/-- The `GCodeInfo` produced by parsing `[";FLAVOR:RepRap\nG90\n"]`. -/
def giFlavour : GCodeInfo := { line_count := 2, flavour := some "RepRap" }

/-- A G-code list with all six bounding-box keys well-formed. -/
def lSix : List String :=
  [";MINX:1.5\n;MINY:1\n;MINZ:0.3\n;MAXX:2\n;MAXY:2\n;MAXZ:52\nG90\n"]

/-- The `GCodeInfo` produced by parsing `lSix`. -/
def giSix : GCodeInfo :=
  { bbox := ⟨⟨⟨15, 10⟩, ⟨1, 1⟩, ⟨3, 10⟩⟩, ⟨⟨2, 1⟩, ⟨2, 1⟩, ⟨52, 1⟩⟩, true⟩
    line_count := 7 }

/-- The stream writes of the V1 formatter on `host1` and `lSix`. -/
def wsSix : List String :=
  myIntercalate "\n" (mkHeadersV1 host1 (some giSix)) :: lSix

lemma scanGCode_fst (l : List String) : ∀ (lc : Nat) (chk : Bool) (kv : KV),
    (scanGCode l lc chk kv).1 = lc + totalLineCount l := by
  induction l with
  | nil => intro lc chk kv; simp [scanGCode, totalLineCount]
  | cons g rest ih =>
    intro lc chk kv
    simp only [scanGCode, totalLineCount]
    split
    · rw [ih]; omega
    · rw [ih]; omega

lemma parseOriginalGCode_ok (l : List String) (i : GCodeInfo)
    (hp : parseOriginalGCode l = .ok i) :
    i.line_count = totalLineCount l ∧ i.flavor = "Marlin" ∧
    i.flavour = kvLookup (scanKV l) "FLAVOR" ∧
    ((kvHas (scanKV l) "MINX" = true ∧ bboxOf (scanKV l) = .ok i.bbox) ∨
     (kvHas (scanKV l) "MINX" = false ∧ i.bbox = AxisAlignedBox.invalid)) := by
  unfold parseOriginalGCode at hp
  cases hminx : kvHas (scanKV l) "MINX" with
  | false =>
    simp only [hminx, Bool.false_eq_true, if_false] at hp
    injection hp with h
    subst h
    refine ⟨?_, rfl, rfl, Or.inr ⟨rfl, rfl⟩⟩
    simpa using scanGCode_fst l 0 true []
  | true =>
    simp only [hminx, if_true] at hp
    cases hb : bboxOf (scanKV l) with
    | error e => rw [hb] at hp; exact absurd hp (by simp)
    | ok bb =>
      rw [hb] at hp
      injection hp with h
      subst h
      refine ⟨?_, rfl, rfl, Or.inl ⟨rfl, rfl⟩⟩
      simpa using scanGCode_fst l 0 true []

lemma parseOriginalGCode_error (l : List String) (e : PyError)
    (hp : parseOriginalGCode l = .error e) :
    kvHas (scanKV l) "MINX" = true ∧ bboxOf (scanKV l) = .error e := by
  unfold parseOriginalGCode at hp
  cases hminx : kvHas (scanKV l) "MINX" with
  | false =>
    simp only [hminx, Bool.false_eq_true, if_false] at hp
    exact absurd hp (by simp)
  | true =>
    simp only [hminx, if_true] at hp
    cases hb : bboxOf (scanKV l) with
    | error e2 =>
      rw [hb] at hp
      injection hp with h
      subst h
      exact ⟨rfl, rfl⟩
    | ok bb => rw [hb] at hp; exact absurd hp (by simp)

lemma kvGetFloat_ok_iff (kv : KV) (k : String) (d : PyFloat) :
    kvGetFloat kv k = .ok d ↔ (kvLookup kv k).bind pyFloat = some d := by
  unfold kvGetFloat
  cases kvLookup kv k with
  | none => simp
  | some v =>
    cases hv : pyFloat v with
    | none => simp [hv]
    | some d2 => simp [hv]

lemma kvGetFloat_ex_iff (kv : KV) (k : String) :
    (∃ d, kvGetFloat kv k = .ok d) ↔
      ((kvLookup kv k).bind pyFloat).isSome = true := by
  simp only [kvGetFloat_ok_iff]
  exact (Option.isSome_iff_exists (x := (kvLookup kv k).bind pyFloat)).symm

lemma bboxOf_ok_valid (kv : KV) (bb : AxisAlignedBox)
    (h : bboxOf kv = .ok bb) : bb.valid = true := by
  unfold bboxOf at h
  repeat' split at h
  all_goals first
    | (injection h with h2; rw [← h2])
    | injection h

lemma bboxOf_ok_iff (kv : KV) :
    (∃ bb, bboxOf kv = .ok bb) ↔ sixKeysWellFormed kv = true := by
  constructor
  · rintro ⟨bb, hbb⟩
    unfold bboxOf at hbb
    cases h1 : kvGetFloat kv "MINX" with
    | error e => rw [h1] at hbb; exact absurd hbb (by simp)
    | ok x1 =>
    rw [h1] at hbb
    cases h2 : kvGetFloat kv "MINY" with
    | error e => rw [h2] at hbb; exact absurd hbb (by simp)
    | ok x2 =>
    rw [h2] at hbb
    cases h3 : kvGetFloat kv "MINZ" with
    | error e => rw [h3] at hbb; exact absurd hbb (by simp)
    | ok x3 =>
    rw [h3] at hbb
    cases h4 : kvGetFloat kv "MAXX" with
    | error e => rw [h4] at hbb; exact absurd hbb (by simp)
    | ok x4 =>
    rw [h4] at hbb
    cases h5 : kvGetFloat kv "MAXY" with
    | error e => rw [h5] at hbb; exact absurd hbb (by simp)
    | ok x5 =>
    rw [h5] at hbb
    cases h6 : kvGetFloat kv "MAXZ" with
    | error e => rw [h6] at hbb; exact absurd hbb (by simp)
    | ok x6 =>
    simp only [sixKeysWellFormed, List.all_cons, List.all_nil,
      Bool.and_true, Bool.and_eq_true]
    exact ⟨(kvGetFloat_ex_iff kv "MINX").mp ⟨x1, h1⟩,
           (kvGetFloat_ex_iff kv "MINY").mp ⟨x2, h2⟩,
           (kvGetFloat_ex_iff kv "MINZ").mp ⟨x3, h3⟩,
           (kvGetFloat_ex_iff kv "MAXX").mp ⟨x4, h4⟩,
           (kvGetFloat_ex_iff kv "MAXY").mp ⟨x5, h5⟩,
           (kvGetFloat_ex_iff kv "MAXZ").mp ⟨x6, h6⟩⟩
  · intro hsix
    simp only [sixKeysWellFormed, List.all_cons, List.all_nil,
      Bool.and_true, Bool.and_eq_true] at hsix
    obtain ⟨s1, s2, s3, s4, s5, s6⟩ := hsix
    obtain ⟨x1, h1⟩ := (kvGetFloat_ex_iff kv "MINX").mpr s1
    obtain ⟨x2, h2⟩ := (kvGetFloat_ex_iff kv "MINY").mpr s2
    obtain ⟨x3, h3⟩ := (kvGetFloat_ex_iff kv "MINZ").mpr s3
    obtain ⟨x4, h4⟩ := (kvGetFloat_ex_iff kv "MAXX").mpr s4
    obtain ⟨x5, h5⟩ := (kvGetFloat_ex_iff kv "MAXY").mpr s5
    obtain ⟨x6, h6⟩ := (kvGetFloat_ex_iff kv "MAXZ").mpr s6
    exact ⟨_, by unfold bboxOf; rw [h1, h2, h3, h4, h5, h6]⟩

lemma six_false_of_no_minx (kv : KV) (h : kvHas kv "MINX" = false) :
    sixKeysWellFormed kv = false := by
  unfold kvHas at h
  unfold sixKeysWellFormed
  cases hl : kvLookup kv "MINX" with
  | none => simp [hl]
  | some v => rw [hl] at h; simp at h

/-- None of the fixed V1 header lines is a work-range line; the
work-range block's own lines are.  These are definitional (the prefix
mismatch is decided inside the literal part of each line). -/
lemma noWR_headerStart : pyStarts ";Header Start" ";Work Range" = false := rfl

lemma noWR_version : pyStarts ";Version:1" ";Work Range" = false := rfl

lemma noWR_slicer : pyStarts ";Slicer:CuraEngine" ";Work Range" = false := rfl

lemma noWR_printer (s : String) :
    pyStarts (";Printer:" ++ s) ";Work Range" = false := rfl

lemma noWR_estimated (s : String) :
    pyStarts (";Estimated Print Time:" ++ s) ";Work Range" = false := rfl

lemma noWR_lines (s : String) :
    pyStarts (";Lines:" ++ s) ";Work Range" = false := rfl

lemma noWR_extruderMode (s : String) :
    pyStarts (";Extruder Mode:" ++ s) ";Work Range" = false := rfl

lemma noWR_bedTemp (s : String) :
    pyStarts (";Bed Temperature:" ++ s) ";Work Range" = false := rfl

lemma noWR_extrudersUsed (s : String) :
    pyStarts (";Extruder(s) Used:" ++ s) ";Work Range" = false := rfl

lemma noWR_thumbnail (s : String) :
    pyStarts (";Thumbnail:" ++ s) ";Work Range" = false := rfl

lemma noWR_headerEnd : pyStarts ";Header End" ";Work Range" = false := rfl

lemma noWR_blank : pyStarts "" ";Work Range" = false := rfl

lemma noWR_extruderBlock (e : Extruder) :
    ((extruderLines e).any fun s => pyStarts s ";Work Range") = false := rfl

lemma yesWR_minx (s : String) :
    pyStarts (";Work Range - Min X:" ++ s) ";Work Range" = true := rfl

lemma noWR_extruderBlocks (es : List Extruder) :
    ((es.map extruderLines).flatten.any fun s => pyStarts s ";Work Range")
      = false := by
  induction es with
  | nil => rfl
  | cons e rest ih =>
    simp only [List.map_cons, List.flatten_cons, List.any_append,
      noWR_extruderBlock e, ih, Bool.or_self]

lemma hasWorkRange_mkHeadersV1 (h : Host) (gi : Option GCodeInfo) :
    hasWorkRange (mkHeadersV1 h gi) = giValid gi := by
  unfold hasWorkRange mkHeadersV1
  simp only [List.any_append, List.any_cons, List.any_nil,
    noWR_headerStart, noWR_version, noWR_slicer, noWR_printer,
    noWR_estimated, noWR_lines, noWR_extruderMode, noWR_bedTemp,
    noWR_extrudersUsed, noWR_thumbnail, noWR_headerEnd, noWR_blank,
    noWR_extruderBlocks, Bool.or_false, Bool.false_or]
  cases gi with
  | none => simp [giValid]
  | some i =>
    cases hv : i.bbox.valid with
    | false => simp [giValid, hv]
    | true => simp [giValid, hv, workRangeLinesV1, yesWR_minx]

lemma mkHeadersV1_head (h : Host) (gi : Option GCodeInfo) :
    (mkHeadersV1 h gi).head? = some ";Header Start" := rfl

lemma mkHeadersV1_last (h : Host) (gi : Option GCodeInfo) :
    (mkHeadersV1 h gi).getLast? = some "" := by
  unfold mkHeadersV1
  exact List.getLast?_concat _

lemma mkHeadersV1_penult (h : Host) (gi : Option GCodeInfo) :
    (mkHeadersV1 h gi).dropLast.getLast? = some ";Header End" := by
  unfold mkHeadersV1
  rw [List.dropLast_concat]
  exact List.getLast?_concat _

lemma mkHeadersLegacy_head (h : Host) (gi : Option GCodeInfo)
    (pt bt ps : PyFloat) :
    (mkHeadersLegacy h gi pt bt ps).head? = some ";Header Start" := rfl

lemma mkHeadersLegacy_last (h : Host) (gi : Option GCodeInfo)
    (pt bt ps : PyFloat) :
    (mkHeadersLegacy h gi pt bt ps).getLast? = some "" := by
  unfold mkHeadersLegacy
  exact List.getLast?_concat _

lemma mkHeadersLegacy_penult (h : Host) (gi : Option GCodeInfo)
    (pt bt ps : PyFloat) :
    (mkHeadersLegacy h gi pt bt ps).dropLast.getLast? = some ";Header End" := by
  unfold mkHeadersLegacy
  rw [List.dropLast_concat]
  exact List.getLast?_concat _

lemma processGCodeListV1_ok_shape (h : Host) (l ws : List String)
    (hok : processGCodeListV1 h l = .ok ws) :
    ∃ gi, runParse l = .ok gi ∧
      ws = myIntercalate "\n" (mkHeadersV1 h gi) :: l := by
  unfold processGCodeListV1 at hok
  cases hr : runParse l with
  | error e => rw [hr] at hok; exact absurd hok (by simp)
  | ok gi =>
    rw [hr] at hok
    injection hok with hws
    exact ⟨gi, rfl, hws.symm⟩

/-! ### Claim theorems -/

set_option maxRecDepth 40000

/-- C1: contrary to the claim, an active device name matching no entry of
the device table does not resolve the header version to −1: the Python
loop variable retains the last (truthy) table entry, so the version
resolves to that entry's `header_version` (here 1) and a V1 header block
is written instead of the byte-for-byte pass-through. -/
theorem unmatched_device_not_transparent :
    detectHeaderVersion [⟨"Snapmaker J1", some 1⟩] "Unknown Device" = .ok 1 ∧
    (Except.ok 1 : Except PyError Int) ≠ .ok (-1) ∧
    processGCodeList hostUnmatched ["G90\n"] =
      .ok [myIntercalate "\n" (mkHeadersV1 hostUnmatched (some { line_count := 1 })),
           "G90\n"] ∧
    processGCodeList hostUnmatched ["G90\n"] ≠ .ok ["G90\n"] := by
  decide

/-- C2 (counterexample): when the bounding-box extraction fails with
`KeyError` (`MINX` present, `MINY` missing), the V1 formatter emits
`;Lines:0` even though the chunks contain two newline-terminated lines —
the emitted line count does not equal the total. -/
theorem lines_zero_on_partial_bbox :
    totalLineCount [";MINX:1\nG90\n"] = 2 ∧
    parseOriginalGCode [";MINX:1\nG90\n"] = .error .keyError ∧
    processGCodeListV1 host1 [";MINX:1\nG90\n"] =
      .ok [myIntercalate "\n" (mkHeadersV1 host1 none), ";MINX:1\nG90\n"] ∧
    ";Lines:0" ∈ mkHeadersV1 host1 none ∧
    ";Lines:2" ∉ mkHeadersV1 host1 none := by
  decide

/-- C2 (amended): whenever the metadata parse succeeds, the parsed
`line_count` equals the total newline count over all chunks (each chunk
contributing its number of `'\n'`-splits minus one), and both the V1
`;Lines:` header and the legacy `;file_total_lines:` header carry that
total; when the parse raises `KeyError` the emitted count falls back
to 0. -/
theorem line_count_total_on_parse_success (h : Host) (l : List String)
    (i : GCodeInfo) (hp : parseOriginalGCode l = .ok i)
    (pt bt ps : PyFloat) :
    i.line_count = totalLineCount l ∧
    (";Lines:" ++ natToStr (totalLineCount l)) ∈ mkHeadersV1 h (some i) ∧
    (";file_total_lines: " ++ natToStr (totalLineCount l))
      ∈ mkHeadersLegacy h (some i) pt bt ps := by
  obtain ⟨hlc, -, -, -⟩ := parseOriginalGCode_ok l i hp
  refine ⟨hlc, ?_, ?_⟩ <;> simp [mkHeadersV1, mkHeadersLegacy, hlc]

/-- Witness for C2's amended theorem at a concrete parse-success input. -/
theorem line_count_total_on_parse_success_witness :
    giPlain.line_count = totalLineCount ["G90\nG1\n"] ∧
    (";Lines:" ++ natToStr (totalLineCount ["G90\nG1\n"]))
      ∈ mkHeadersV1 host1 (some giPlain) ∧
    (";file_total_lines: " ++ natToStr (totalLineCount ["G90\nG1\n"]))
      ∈ mkHeadersLegacy host1 (some giPlain) ⟨210, 1⟩ ⟨60, 1⟩ ⟨3600, 1⟩ :=
  line_count_total_on_parse_success host1 ["G90\nG1\n"] giPlain (by decide)
    ⟨210, 1⟩ ⟨60, 1⟩ ⟨3600, 1⟩

/-- C3 (counterexample): malformed numeric text in a bounding-box value
raises `ValueError`, which the formatter boundary (`except KeyError`)
does not catch: the exception escapes the V1 and legacy formatters and
even the top-level `write`, with nothing written. -/
theorem value_error_escapes_formatter :
    parseOriginalGCode [chunkMalformed] = .error .valueError ∧
    processGCodeListV1 host1 [chunkMalformed] = .error .valueError ∧
    processGCodeListLegacy host1 [chunkMalformed] = .error .valueError ∧
    write hostMal OutputMode.TextMode = .error .valueError := by
  decide

/-- C3 (amended): the formatter boundary catches exactly `KeyError`
(missing bounding-box companion key), degrading to "no metadata"
(`gcode_info = None`, header still emitted); a `ValueError` from
malformed numeric text propagates out of the formatter uncaught, with no
bytes written. -/
theorem parse_failure_handling (h : Host) (l : List String) :
    (parseOriginalGCode l = .error .keyError →
       processGCodeListV1 h l =
         .ok (myIntercalate "\n" (mkHeadersV1 h none) :: l)) ∧
    (parseOriginalGCode l = .error .valueError →
       processGCodeListV1 h l = .error .valueError) := by
  constructor <;> intro hp <;> unfold processGCodeListV1 runParse <;> rw [hp]

/-- Witness for C3's amended theorem at concrete inputs exercising both
the caught `KeyError` and the escaping `ValueError`. -/
theorem parse_failure_handling_witness :
    processGCodeListV1 host1 [";MINX:1\nG90\n"] =
      .ok (myIntercalate "\n" (mkHeadersV1 host1 none) :: [";MINX:1\nG90\n"]) ∧
    processGCodeListV1 host1 [chunkMalformed] = .error .valueError :=
  ⟨(parse_failure_handling host1 [";MINX:1\nG90\n"]).1 (by decide),
   (parse_failure_handling host1 [chunkMalformed]).2 (by decide)⟩

/-- C4: for every successfully parsed input the declared `flavor` field
still holds its default "Marlin" — the parse assigns the differently
spelt `flavour` attribute (which receives the `FLAVOR` header value), so
`flavor` is never assigned from the input. -/
theorem flavor_never_assigned (l : List String) (i : GCodeInfo)
    (hp : parseOriginalGCode l = .ok i) :
    i.flavor = "Marlin" ∧ i.flavour = kvLookup (scanKV l) "FLAVOR" := by
  obtain ⟨-, hf, hfl, -⟩ := parseOriginalGCode_ok l i hp
  exact ⟨hf, hfl⟩

/-- Witness for C4 at an input that carries a `;FLAVOR:RepRap` line. -/
theorem flavor_never_assigned_witness :
    giFlavour.flavor = "Marlin" ∧
    giFlavour.flavour = kvLookup (scanKV [";FLAVOR:RepRap\nG90\n"]) "FLAVOR" :=
  flavor_never_assigned [";FLAVOR:RepRap\nG90\n"] giFlavour (by decide)

/-- C5: on every successful V1 formatting run, the work-range header
lines appear in the header block exactly when all six bounding-box keys
were present in the parsed header with well-formed numeric values, and
the parsed bounding box is valid under the same condition; any input
missing one of the six yields an invalid (or absent) box and no
work-range lines. -/
theorem work_range_iff_six_keys (h : Host) (l ws : List String)
    (hok : processGCodeListV1 h l = .ok ws) :
    ∃ gi : Option GCodeInfo,
      ws = myIntercalate "\n" (mkHeadersV1 h gi) :: l ∧
      giValid gi = sixKeysWellFormed (scanKV l) ∧
      hasWorkRange (mkHeadersV1 h gi) = sixKeysWellFormed (scanKV l) := by
  obtain ⟨gi, hr, hws⟩ := processGCodeListV1_ok_shape h l ws hok
  have hmain : giValid gi = sixKeysWellFormed (scanKV l) := by
    unfold runParse at hr
    cases hp : parseOriginalGCode l with
    | ok i =>
      rw [hp] at hr
      injection hr with hgi
      subst hgi
      obtain ⟨-, -, -, hcase⟩ := parseOriginalGCode_ok l i hp
      rcases hcase with ⟨hminx, hbb⟩ | ⟨hminx, hbb⟩
      · have hvalid := bboxOf_ok_valid _ _ hbb
        have hsix := (bboxOf_ok_iff (scanKV l)).mp ⟨_, hbb⟩
        simp [giValid, hvalid, hsix]
      · have hsix := six_false_of_no_minx _ hminx
        simp [giValid, hbb, hsix, AxisAlignedBox.invalid]
    | error e =>
      rw [hp] at hr
      cases e with
      | keyError =>
        injection hr with hgi
        subst hgi
        obtain ⟨-, hbb⟩ := parseOriginalGCode_error l _ hp
        cases hsix : sixKeysWellFormed (scanKV l) with
        | false => rfl
        | true =>
          obtain ⟨bb, hb2⟩ := (bboxOf_ok_iff _).mpr hsix
          rw [hb2] at hbb
          exact absurd hbb (by simp)
      | valueError => exact absurd hr (by simp)
      | nameError => exact absurd hr (by simp)
  exact ⟨gi, hws, hmain, by rw [hasWorkRange_mkHeadersV1, hmain]⟩

/-- Witness for C5 on a concrete input with all six keys well-formed. -/
theorem work_range_iff_six_keys_witness :
    ∃ gi : Option GCodeInfo,
      wsSix = myIntercalate "\n" (mkHeadersV1 host1 gi) :: lSix ∧
      giValid gi = sixKeysWellFormed (scanKV lSix) ∧
      hasWorkRange (mkHeadersV1 host1 gi) = sixKeysWellFormed (scanKV lSix) :=
  work_range_iff_six_keys host1 lSix wsSix (by decide)

/-- C6: `write` rejects every non-text output mode with `False` and the
not-supported message, rejects missing prepared G-code with `False` and
the please-prepare message, raises nothing and writes nothing in either
case, and returns `True` only when the mode is text and a prepared
G-code list exists for the active build plate. -/
theorem write_preconditions :
    (∀ (h : Host) (mode : OutputMode), mode ≠ OutputMode.TextMode →
       write h mode = .ok ⟨false, some msgNotSupported, []⟩) ∧
    (∀ h : Host, preparedB h = false →
       write h OutputMode.TextMode = .ok ⟨false, some msgPrepare, []⟩) ∧
    (∀ (h : Host) (mode : OutputMode) (o : WriteOutcome),
       write h mode = .ok o → o.success = true →
       mode = OutputMode.TextMode ∧ preparedB h = true) := by
  refine ⟨?_, ?_, ?_⟩
  · intro h mode hm
    cases mode with
    | TextMode => exact absurd rfl hm
    | BinaryMode => rfl
  · intro h hp
    unfold preparedB at hp
    cases hd : h.gcode_dict with
    | none => simp [write, hd]
    | some d =>
      simp only [hd] at hp
      cases hg : dictGet d h.active_build_plate with
      | some gl => rw [hg] at hp; simp at hp
      | none => simp [write, hd, hg]
  · intro h mode o hw hs
    cases mode with
    | BinaryMode =>
      have hb : write h OutputMode.BinaryMode =
          .ok ⟨false, some msgNotSupported, []⟩ := rfl
      rw [hb] at hw
      injection hw with h2
      rw [← h2] at hs
      exact absurd hs (by simp)
    | TextMode =>
      refine ⟨rfl, ?_⟩
      unfold write at hw
      unfold preparedB
      cases hd : h.gcode_dict with
      | none =>
        rw [hd] at hw
        simp only [bne_self_eq_false, Bool.false_eq_true, if_false] at hw
        injection hw with h2
        rw [← h2] at hs
        exact absurd hs (by simp)
      | some d =>
        rw [hd] at hw
        simp only [bne_self_eq_false, Bool.false_eq_true, if_false] at hw
        cases hg : dictGet d h.active_build_plate with
        | none =>
          rw [hg] at hw
          injection hw with h2
          rw [← h2] at hs
          exact absurd hs (by simp)
        | some gl => simp [hg]

/-- Witness for C6: a binary-mode call and an unprepared text-mode call,
both rejected as the theorem states. -/
theorem write_preconditions_witness :
    write host1 OutputMode.BinaryMode = .ok ⟨false, some msgNotSupported, []⟩ ∧
    write hostNoPrep OutputMode.TextMode = .ok ⟨false, some msgPrepare, []⟩ :=
  ⟨write_preconditions.1 host1 OutputMode.BinaryMode (by decide),
   write_preconditions.2.1 hostNoPrep (by decide)⟩

/-- C7: every successful V1 or legacy formatting run writes exactly one
newline-joined header block — whose first line is `;Header Start` and
whose last two lines are `;Header End` and a blank line — followed by
the original body chunks verbatim and in order. -/
theorem formatter_output_shape (h : Host) (l ws : List String)
    (hok : processGCodeListV1 h l = .ok ws ∨
           processGCodeListLegacy h l = .ok ws) :
    ∃ hs : List String,
      ws = myIntercalate "\n" hs :: l ∧
      hs.head? = some ";Header Start" ∧
      hs.dropLast.getLast? = some ";Header End" ∧
      hs.getLast? = some "" := by
  rcases hok with hok | hok
  · obtain ⟨gi, -, hws⟩ := processGCodeListV1_ok_shape h l ws hok
    exact ⟨mkHeadersV1 h gi, hws, mkHeadersV1_head h gi,
           mkHeadersV1_penult h gi, mkHeadersV1_last h gi⟩
  · simp only [processGCodeListLegacy] at hok
    repeat' split at hok
    all_goals first
      | (injection hok with hws
         exact ⟨_, hws.symm, mkHeadersLegacy_head _ _ _ _ _,
                mkHeadersLegacy_penult _ _ _ _ _,
                mkHeadersLegacy_last _ _ _ _ _⟩)
      | injection hok

/-- Witness for C7 on a concrete successful V1 run. -/
theorem formatter_output_shape_witness :
    ∃ hs : List String,
      wsSix = myIntercalate "\n" hs :: lSix ∧
      hs.head? = some ";Header Start" ∧
      hs.dropLast.getLast? = some ";Header End" ∧
      hs.getLast? = some "" :=
  formatter_output_shape host1 lSix wsSix (Or.inl (by decide))

/-- C8: the `;Extruder(s) Used:` line of the V1 header reports the
number of distinct extruder indices over the scene nodes that carry a
stack (nodes without one are skipped); for annotations {0, 0, 1, 2} the
count is 3. -/
theorem extruders_used_distinct :
    (∀ nodes : List SceneNode,
       extrudersUsed nodes =
         ((nodes.filterMap SceneNode.extruder_nr).toFinset).card) ∧
    extrudersUsed [⟨some 0⟩, ⟨some 0⟩, ⟨some 1⟩, ⟨some 2⟩] = 3 ∧
    (∀ (h : Host) (gi : Option GCodeInfo),
       (";Extruder(s) Used:" ++ natToStr (extrudersUsed h.scene_nodes))
         ∈ mkHeadersV1 h gi) := by
  refine ⟨?_, by decide, ?_⟩
  · intro nodes
    simp [extrudersUsed, List.card_toFinset]
  · intro h gi
    simp [mkHeadersV1]

/-- C9: a float-typed extruder setting on the legacy path is rendered to
4 decimal places with trailing zeros and a trailing decimal point
stripped; in particular 210.0 renders as "210" and 210.5 as "210.5". -/
theorem float_setting_rendering :
    (∀ (st : ExtruderSetting) (d : PyFloat),
       st.type = "float" → st.value = .pfloat d →
       getExtruderValue st = .ok (rstrip '.' (rstrip '0' (formatFixed 4 d)))) ∧
    getExtruderValue ⟨"float", .pfloat ⟨210, 1⟩, []⟩ = .ok "210" ∧
    getExtruderValue ⟨"float", .pfloat ⟨2105, 10⟩, []⟩ = .ok "210.5" := by
  refine ⟨?_, by decide, by decide⟩
  intro st d ht hv
  unfold getExtruderValue
  rw [ht, hv]
  rfl

/-- Witness for C9 applying the general rendering rule at 210.5. -/
theorem float_setting_rendering_witness :
    getExtruderValue ⟨"float", .pfloat ⟨2105, 10⟩, []⟩ =
      .ok (rstrip '.' (rstrip '0' (formatFixed 4 ⟨2105, 10⟩))) :=
  float_setting_rendering.1 ⟨"float", .pfloat ⟨2105, 10⟩, []⟩ ⟨2105, 10⟩ rfl rfl

/-- C10: the `mode` parameter of `write` defaults to `BinaryMode`, the
rejected mode: a call that omits the mode argument returns `False` with
the not-supported message and writes nothing, for every host state. -/
theorem write_default_mode_rejected :
    (∀ h : Host, write h = write h OutputMode.BinaryMode) ∧
    (∀ h : Host, write h = .ok ⟨false, some msgNotSupported, []⟩) :=
  ⟨fun _ => rfl, fun _ => rfl⟩

end Snapmaker
